import Mathlib

/-!
Shallow embedding of the draft-coordination server in app.py: the static
style catalog, the per-room DraftState machine, and the websocket handler
level operations (open, on_message, on_close) of ChatSocketHandler.
Python exceptions (KeyError on a missing dict key, IndexError on an
out-of-range list index) are modelled by Option: a none result marks the
point where the Python code would raise.
-/

/-- One turn descriptor of a draft style, as in the draft_styles table:
a dict with keys index, side and type. -/
structure TurnDesc where
  index : Nat
  side : String
  type : String
deriving DecidableEq, Repr

/-- The single style of the catalog, draft_styles at key 1. -/
def style1 : List TurnDesc :=
  [ ⟨1, "1", "ban"⟩,
    ⟨2, "2", "ban"⟩,
    ⟨3, "2", "ban"⟩,
    ⟨4, "1", "ban"⟩,
    ⟨5, "1", "pick"⟩,
    ⟨6, "2", "pick"⟩ ]

/-- The static catalog draft_styles, an association list keyed by style id. -/
def draft_styles : List (String × List TurnDesc) := [("1", style1)]

/-- Association-list lookup, modelling a Python dict read d[k]; none models
the KeyError case. -/
def alookup {α : Type} : List (String × α) → String → Option α
  | [], _ => none
  | (k2, v) :: rest, k => if k2 = k then some v else alookup rest k

/-- Association-list write d[k] = v: replaces the existing binding or adds
a new one. -/
def aset {α : Type} : List (String × α) → String → α → List (String × α)
  | [], k, v => [(k, v)]
  | (k2, v2) :: rest, k, v =>
    if k2 = k then (k, v) :: rest else (k2, v2) :: aset rest k v

/-- Association-list deletion del d[k]. -/
def aremove {α : Type} : List (String × α) → String → List (String × α)
  | [], _ => []
  | (k2, v2) :: rest, k =>
    if k2 = k then aremove rest k else (k2, v2) :: aremove rest k

/-- Catalog access draft_styles[sid]; none models the KeyError on an
unknown style id. -/
def lookupStyle (sid : String) : Option (List TurnDesc) :=
  alookup draft_styles sid

/-- A committed update event, the dict built in on_message: keys time,
type, hero and (added right after update_draft via in-place mutation of
the same dict, hence visible in the stored history as well) index. -/
structure UpdateEvent where
  time : String
  type : String
  hero : String
  index : Nat
deriving DecidableEq, Repr

/-- A notice dict with keys time, type and message, as built for the
rejection branches of on_message. -/
structure Notice where
  time : String
  type : String
  message : String
deriving DecidableEq, Repr

/-- DraftState of app.py: style id, 0-based committed-turn counter, and
the append-only history list. -/
structure DraftState where
  style : String
  turn : Nat
  history : List UpdateEvent
deriving DecidableEq, Repr

/-- DraftState.__init__: stores the style id unvalidated, turn 0, empty
history. -/
def DraftState.new (style : String) : DraftState :=
  ⟨style, 0, []⟩

/-- DraftState.get_history. -/
def DraftState.get_history (d : DraftState) : List UpdateEvent :=
  d.history

/-- DraftState.get_turn. -/
def DraftState.get_turn (d : DraftState) : Nat :=
  d.turn

/-- DraftState.next_turn. -/
def DraftState.next_turn (d : DraftState) : DraftState :=
  { d with turn := d.turn + 1 }

/-- DraftState.update_draft: increments the turn, then appends the event. -/
def DraftState.update_draft (d : DraftState) (e : UpdateEvent) : DraftState :=
  let d2 := d.next_turn
  { d2 with history := d2.history ++ [e] }

/-- DraftState.is_turn: reads draft_styles[style][turn].side with no
bounds guard; none models the KeyError or IndexError the Python raises. -/
def DraftState.is_turn (d : DraftState) (team : String) : Option Bool :=
  match lookupStyle d.style with
  | none => none
  | some seq =>
    match seq[d.turn]? with
    | none => none
    | some td => some (td.side == team)

/-- DraftState.is_ended: turn strictly greater than the style length; none
models the KeyError on an unknown style id. -/
def DraftState.is_ended (d : DraftState) : Option Bool :=
  (lookupStyle d.style).map (fun seq => decide (d.turn > seq.length))

/-- Outcome of ChatSocketHandler.on_message on the draft state of the
senders room, with the messages the handler builds. crash marks an
uncaught Python exception. -/
inductive MsgResult where
  | crash
  | endedBroadcast (n : Notice)
  | turnNotice (n : Notice)
  | commit (e : UpdateEvent)
deriving DecidableEq, Repr

/-- The state-machine core of ChatSocketHandler.on_message: the checks
on the rooms DraftState, the event construction and update_draft.
Returns the outcome together with the resulting DraftState; the
index key is set on the event dict right after update_draft, so the
committed event carries index = turn + 1 (the incremented turn). -/
def on_message (d : DraftState) (role payload t : String) :
    MsgResult × DraftState :=
  match d.is_ended with
  | none => (MsgResult.crash, d)
  | some true => (MsgResult.endedBroadcast ⟨t, "message", "Draft has ended"⟩, d)
  | some false =>
    match d.is_turn role with
    | none => (MsgResult.crash, d)
    | some false => (MsgResult.turnNotice ⟨t, "message", "Not your turn"⟩, d)
    | some true =>
      let e : UpdateEvent := ⟨t, "update", payload, d.turn + 1⟩
      (MsgResult.commit e, d.update_draft e)

/-- One registered connection in a rooms waiters list: an opaque
connection identity plus the role string. -/
structure Client where
  cid : Nat
  role : String
deriving DecidableEq, Repr

/-- The class-level state of ChatSocketHandler: the waiters and
draft_states dicts, keyed by room. -/
structure Server where
  waiters : List (String × List Client)
  draft_states : List (String × DraftState)
deriving DecidableEq, Repr

/-- What ChatSocketHandler.open writes back to the opening connection:
an error dict followed by close, a silent first join, or a join answered
with the history replay. crash marks the KeyError raised when the room is
in waiters but not in draft_states. -/
inductive OpenResult where
  | errorResp (textStatus : String)
  | joinedFirst
  | joinedReplay (events : List UpdateEvent)
  | crash
deriving DecidableEq, Repr

/-- The trailing lines of open: if room not in draft_states, store a
fresh DraftState built from the given style id. -/
def ensureDraft (ds : List (String × DraftState)) (room sid : String) :
    List (String × DraftState) :=
  match alookup ds room with
  | some _ => ds
  | none => ds ++ [(room, DraftState.new sid)]

/-- ChatSocketHandler.open for a connection with identity c: the
no-room check, the role-taken check against the rooms waiters, waiters
registration, history replay for a joiner of an already-waited room, and
lazy creation of the rooms DraftState. -/
def open_conn (s : Server) (c : Nat) (room role sid : String) :
    OpenResult × Server :=
  if room = "" then (OpenResult.errorResp "Error: No room specified", s)
  else
    match alookup s.waiters room with
    | some clients =>
      if clients.any (fun cl => cl.role == role) then
        (OpenResult.errorResp "Error: Role already specified",
         { s with draft_states := ensureDraft s.draft_states room sid })
      else
        let w2 := aset s.waiters room (clients ++ [⟨c, role⟩])
        match alookup s.draft_states room with
        | none => (OpenResult.crash, { s with waiters := w2 })
        | some d =>
          (OpenResult.joinedReplay d.get_history,
           { waiters := w2, draft_states := ensureDraft s.draft_states room sid })
    | none =>
      (OpenResult.joinedFirst,
       { waiters := aset s.waiters room [⟨c, role⟩],
         draft_states := ensureDraft s.draft_states room sid })

/-- Delivery performed by on_message: a broadcast via send_updates to
every client of the room (the sender is then closed in the ended case),
or a unicast via send_update to the sender alone. -/
inductive Delivery where
  | broadcastNotice (cids : List Nat) (n : Notice)
  | unicastNotice (n : Notice)
  | broadcastEvent (cids : List Nat) (e : UpdateEvent)
deriving DecidableEq, Repr

/-- ChatSocketHandler.on_message at the server level: reads the rooms
DraftState from draft_states, runs the core, resolves the recipients of
send_updates from waiters, and writes the state back. none marks an
uncaught exception (missing room in draft_states or waiters, unknown
style, or an out-of-range turn index). -/
def server_on_message (s : Server) (room role payload t : String) :
    Option (Server × Delivery) :=
  match alookup s.draft_states room with
  | none => none
  | some d =>
    match on_message d role payload t with
    | (MsgResult.crash, _) => none
    | (MsgResult.endedBroadcast n, _) =>
      (alookup s.waiters room).map
        (fun clients => (s, Delivery.broadcastNotice (clients.map Client.cid) n))
    | (MsgResult.turnNotice n, _) =>
      some (s, Delivery.unicastNotice n)
    | (MsgResult.commit e, d2) =>
      (alookup s.waiters room).map
        (fun clients =>
          ({ s with draft_states := aset s.draft_states room d2 },
           Delivery.broadcastEvent (clients.map Client.cid) e))

/-- ChatSocketHandler.on_close for a connection whose room attribute is
roomOpt (none models the None written by the rejected-role path): removes
the connections waiters entry and deletes the rooms waiters key once
empty; draft_states is never touched. none marks the KeyError when the
room is missing from waiters. -/
def on_close (s : Server) (roomOpt : Option String) (role : String) :
    Option Server :=
  match roomOpt with
  | none => some s
  | some room =>
    if room = "" then some s
    else
      match alookup s.waiters room with
      | none => none
      | some clients =>
        let remaining := clients.filter (fun cl => !(cl.role == role))
        if remaining.isEmpty then
          some { s with waiters := aremove s.waiters room }
        else
          some { s with waiters := aset s.waiters room remaining }

/-- Iterated on_message submissions against one DraftState, used to
drive concrete traces; each pair is (role, payload). -/
def playAll (d : DraftState) (moves : List (String × String)) : DraftState :=
  moves.foldl (fun a m => (on_message a m.1 m.2 "t0").2) d

/-- The six in-turn submissions of style 1, sides 1,2,2,1,1,2. -/
def sixMoves : List (String × String) :=
  [("1", "a"), ("2", "b"), ("2", "c"), ("1", "d"), ("1", "e"), ("2", "f")]

/-- DraftStates reachable from a fresh DraftState for style sid by any
sequence of on_message submissions. -/
inductive Reachable (sid : String) : DraftState → Prop where
  | init : Reachable sid (DraftState.new sid)
  | step (d : DraftState) (role payload t : String) :
      Reachable sid d → Reachable sid (on_message d role payload t).2

/-- Decomposing the is_turn read: a some result pins down the style
sequence and the turn descriptor it inspected. -/
lemma is_turn_eq_some (d : DraftState) (team : String) (b : Bool)
    (h : d.is_turn team = some b) :
    ∃ seq td, lookupStyle d.style = some seq ∧ seq[d.turn]? = some td ∧
      (td.side == team) = b := by
  cases hl : lookupStyle d.style with
  | none => simp [DraftState.is_turn, hl] at h
  | some seq =>
    cases hg : seq[d.turn]? with
    | none => simp [DraftState.is_turn, hl, hg] at h
    | some td =>
      simp [DraftState.is_turn, hl, hg] at h
      exact ⟨seq, td, rfl, hg, by simp [h]⟩

/-- Case analysis of the state component of on_message: either the
DraftState is returned untouched (crash, ended or not-your-turn), or a
valid in-turn submission committed through update_draft; the commit case
records the successful catalog and sequence reads behind it. -/
lemma on_message_snd (d : DraftState) (role payload t : String) :
    (on_message d role payload t).2 = d ∨
    (∃ seq td, lookupStyle d.style = some seq ∧ seq[d.turn]? = some td ∧
      (td.side == role) = true ∧
      (on_message d role payload t).2 =
        d.update_draft ⟨t, "update", payload, d.turn + 1⟩) := by
  cases he : d.is_ended with
  | none => left; simp [on_message, he]
  | some b =>
    cases b with
    | true => left; simp [on_message, he]
    | false =>
      cases ht : d.is_turn role with
      | none => left; simp [on_message, he, ht]
      | some c =>
        cases c with
        | false => left; simp [on_message, he, ht]
        | true =>
          right
          obtain ⟨seq, td, hl, hg, hside⟩ := is_turn_eq_some d role true ht
          exact ⟨seq, td, hl, hg, hside, by simp [on_message, he, ht]⟩

/-- on_message never changes the style id of the DraftState. -/
lemma reachable_style (sid : String) (d : DraftState)
    (h : Reachable sid d) : d.style = sid := by
  induction h with
  | init => rfl
  | step d2 role payload t hr ih =>
    rcases on_message_snd d2 role payload t with heq | ⟨seq, td, _, _, _, heq⟩
    · rw [heq]; exact ih
    · rw [heq]
      simpa [DraftState.update_draft, DraftState.next_turn] using ih

/-- In every reachable state of the style 1 draft the turn counter stays
within the six-slot sequence. -/
lemma reachable_turn_le (d : DraftState) (h : Reachable "1" d) :
    d.turn ≤ 6 := by
  induction h with
  | init => exact Nat.zero_le 6
  | step d2 role payload t hr ih =>
    rcases on_message_snd d2 role payload t with heq | ⟨seq, td, hl, hg, _, heq⟩
    · rw [heq]; exact ih
    · rw [heq]
      have hs : d2.style = "1" := reachable_style "1" d2 hr
      rw [hs] at hl
      have hseq : seq = style1 := by
        have h1 : lookupStyle "1" = some style1 := rfl
        rw [h1] at hl
        exact (Option.some.injEq _ _ ▸ hl).symm
      have hlt : d2.turn < seq.length := (List.getElem?_eq_some.mp hg).1
      rw [hseq] at hlt
      have h6 : style1.length = 6 := rfl
      rw [h6] at hlt
      simp [DraftState.update_draft, DraftState.next_turn]
      omega

/-- Claim C1 (code bug evaluation): after the six valid in-turn
submissions of style 1 all six commits are recorded, yet is_ended still
reports false (the comparison in the source is strict), and a seventh
submission by either side crashes on the unguarded sequence read inside
is_turn instead of returning the DraftEnded rejection. -/
theorem C1_seventh_submission_crashes :
    (playAll (DraftState.new "1") sixMoves).turn = 6 ∧
    (playAll (DraftState.new "1") sixMoves).history.length = 6 ∧
    (playAll (DraftState.new "1") sixMoves).is_ended = some false ∧
    on_message (playAll (DraftState.new "1") sixMoves) "1" "g" "t1" =
      (MsgResult.crash, playAll (DraftState.new "1") sixMoves) ∧
    on_message (playAll (DraftState.new "1") sixMoves) "2" "g" "t1" =
      (MsgResult.crash, playAll (DraftState.new "1") sixMoves) := by
  decide

/-- Claim C2 (code bug evaluation): in the reachable state whose turn
counter equals the length of the style 1 sequence, is_turn does index
past the end of the sequence: for both sides it hits the IndexError case
(modelled by none) instead of returning false. -/
theorem C2_is_turn_out_of_bounds :
    (playAll (DraftState.new "1") sixMoves).turn = style1.length ∧
    (playAll (DraftState.new "1") sixMoves).is_turn "1" = none ∧
    (playAll (DraftState.new "1") sixMoves).is_turn "2" = none := by
  decide

/-- Claim C3 counterexample: the style id bogus is not in the catalog,
yet opening a connection with it succeeds (the join is completed, not
aborted) and a DraftState carrying the unknown id is stored for the
room. -/
theorem C3_counterexample :
    lookupStyle "bogus" = none ∧
    (open_conn ⟨[], []⟩ 1 "r" "1" "bogus").1 = OpenResult.joinedFirst ∧
    alookup (open_conn ⟨[], []⟩ 1 "r" "1" "bogus").2.draft_states "r" =
      some (DraftState.new "bogus") := by
  decide

/-- Claim C3 (amended): creating a DraftState with an unknown style id
succeeds and the join proceeds normally; the failure is deferred to the
first use of the state, where the catalog read raises (is_ended yields
none and on_message crashes without touching the state). -/
theorem C3_unknown_style_deferred (sid : String) (c : Nat)
    (room role : String) (h1 : room ≠ "") (h2 : lookupStyle sid = none) :
    (open_conn ⟨[], []⟩ c room role sid).1 = OpenResult.joinedFirst ∧
    alookup (open_conn ⟨[], []⟩ c room role sid).2.draft_states room =
      some (DraftState.new sid) ∧
    (DraftState.new sid).is_ended = none ∧
    ∀ r p t, on_message (DraftState.new sid) r p t =
      (MsgResult.crash, DraftState.new sid) := by
  have he : (DraftState.new sid).is_ended = none := by
    simp [DraftState.is_ended, DraftState.new, h2]
  refine ⟨?_, ?_, he, ?_⟩
  · simp [open_conn, h1, alookup]
  · simp [open_conn, h1, alookup, ensureDraft]
  · intro r p t
    simp [on_message, he]

/-- Claim C3 witness: the amended statement at the concrete unknown
style id bogus. -/
theorem C3_witness :
    (open_conn ⟨[], []⟩ 1 "r" "1" "bogus").1 = OpenResult.joinedFirst ∧
    on_message (DraftState.new "bogus") "1" "a" "t0" =
      (MsgResult.crash, DraftState.new "bogus") := by
  have h := C3_unknown_style_deferred "bogus" 1 "r" "1" (by decide) (by decide)
  exact ⟨h.1, h.2.2.2 "1" "a" "t0"⟩

/-- Claim C4: in every reachable DraftState the history length equals the
turn counter; moreover a single on_message step either leaves the state
untouched or appends exactly one event while incrementing the turn by
exactly one. -/
theorem C4_history_mirrors_turn :
    (∀ sid d, Reachable sid d → d.history.length = d.turn) ∧
    (∀ d role payload t,
      (on_message d role payload t).2 = d ∨
      ((on_message d role payload t).2.history =
          d.history ++ [⟨t, "update", payload, d.turn + 1⟩] ∧
        (on_message d role payload t).2.turn = d.turn + 1)) := by
  constructor
  · intro sid d h
    induction h with
    | init => rfl
    | step d2 role payload t hr ih =>
      rcases on_message_snd d2 role payload t with heq | ⟨seq, td, _, _, _, heq⟩
      · rw [heq]; exact ih
      · rw [heq]
        simp [DraftState.update_draft, DraftState.next_turn, ih]
  · intro d role payload t
    rcases on_message_snd d role payload t with heq | ⟨seq, td, _, _, _, heq⟩
    · left; exact heq
    · right
      rw [heq]
      exact ⟨rfl, rfl⟩

/-- Claim C4 witness: the invariant evaluated on the concrete reachable
state after the six committed submissions of style 1. -/
theorem C4_witness :
    (playAll (DraftState.new "1") sixMoves).history.length =
      (playAll (DraftState.new "1") sixMoves).turn := by
  refine C4_history_mirrors_turn.1 "1" _ ?_
  exact Reachable.step _ "2" "f" "t0"
    (Reachable.step _ "1" "e" "t0"
      (Reachable.step _ "1" "d" "t0"
        (Reachable.step _ "2" "c" "t0"
          (Reachable.step _ "2" "b" "t0"
            (Reachable.step _ "1" "a" "t0" Reachable.init)))))

/-- Claim C5: an out-of-turn submission while the draft is not ended
answers the sender alone with the Not your turn notice of kind message,
and the whole server state, draft state included, is returned unchanged. -/
theorem C5_not_your_turn_unicast (s : Server) (room role payload t : String)
    (d : DraftState)
    (h1 : alookup s.draft_states room = some d)
    (h2 : d.is_ended = some false)
    (h3 : d.is_turn role = some false) :
    server_on_message s room role payload t =
      some (s, Delivery.unicastNotice ⟨t, "message", "Not your turn"⟩) := by
  simp [server_on_message, h1, on_message, h2, h3]

/-- A concrete two-client room over a fresh style 1 draft, used by the
witnesses. -/
def wServer : Server :=
  ⟨[("r", [⟨1, "1"⟩, ⟨2, "2"⟩])], [("r", DraftState.new "1")]⟩

/-- Claim C5 witness: side 2 submitting first in the fresh style 1 room. -/
theorem C5_witness :
    server_on_message wServer "r" "2" "x" "t0" =
      some (wServer, Delivery.unicastNotice ⟨"t0", "message", "Not your turn"⟩) :=
  C5_not_your_turn_unicast wServer "r" "2" "x" "t0" (DraftState.new "1")
    (by decide) (by decide) (by decide)

/-- Claim C6: a valid in-turn submission with payload p commits the event
with time t, type update, hero p and index equal to the incremented turn
counter, broadcasts exactly that event to every client registered for the
room (the sender included), and writes the updated DraftState back. -/
theorem C6_commit_broadcast (s : Server) (room role payload t : String)
    (d : DraftState) (clients : List Client)
    (h1 : alookup s.draft_states room = some d)
    (hw : alookup s.waiters room = some clients)
    (h2 : d.is_ended = some false)
    (h3 : d.is_turn role = some true) :
    server_on_message s room role payload t =
      some ({ s with
                draft_states := aset s.draft_states room
                    (d.update_draft ⟨t, "update", payload, d.turn + 1⟩) },
            Delivery.broadcastEvent (clients.map Client.cid)
              ⟨t, "update", payload, d.turn + 1⟩) ∧
    (d.update_draft ⟨t, "update", payload, d.turn + 1⟩).get_turn =
      d.turn + 1 := by
  constructor
  · simp [server_on_message, h1, on_message, h2, h3, hw]
  · rfl

/-- Claim C6 witness: side 1 submits the first pick in the fresh style 1
room; both registered clients receive the event carrying index 1. -/
theorem C6_witness :
    server_on_message wServer "r" "1" "adagio" "t0" =
      some ({ wServer with
                draft_states := aset wServer.draft_states "r"
                    ((DraftState.new "1").update_draft
                      ⟨"t0", "update", "adagio", 1⟩) },
            Delivery.broadcastEvent [1, 2] ⟨"t0", "update", "adagio", 1⟩) :=
  (C6_commit_broadcast wServer "r" "1" "adagio" "t0" (DraftState.new "1")
    [⟨1, "1"⟩, ⟨2, "2"⟩] (by decide) (by decide) (by decide) (by decide)).1

/-- The server after a first connection (identity 1, role 1) joins room r
with style 1. -/
def cexS1 : Server := (open_conn ⟨[], []⟩ 1 "r" "1" "1").2

/-- cexS1 after side 1 commits one valid submission. -/
def cexS2 : Server :=
  ((server_on_message cexS1 "r" "1" "adagio" "t1").map Prod.fst).getD cexS1

/-- cexS2 after the only connection of room r disconnects. -/
def cexS3 : Server := (on_close cexS2 (some "r") "1").getD cexS2

/-- Claim C7 counterexample: room r carries one committed event, the
next joiner (identity 2, role 2) is not the first connection the room
ever had, yet open treats it as a first joiner and sends no replay: the
parenthetical of the claim fails, since this room with no current
connections has a non-empty history. -/
theorem C7_counterexample :
    (server_on_message cexS1 "r" "1" "adagio" "t1").isSome = true ∧
    (on_close cexS2 (some "r") "1").isSome = true ∧
    alookup cexS3.waiters "r" = none ∧
    (alookup cexS3.draft_states "r").map (fun d => d.history.length) =
      some 1 ∧
    (open_conn cexS3 2 "r" "2" "1").1 = OpenResult.joinedFirst := by
  decide

/-- Claim C7 (amended): the replay decision follows the waiters registry,
not the committed history: a joiner of a room that currently has at least
one registered connection (and a free role) receives exactly the rooms
committed events, in commit order, as its replay; a joiner of a room with
no currently registered connections receives no replay, even when a
retained DraftState holds committed events from an earlier session. -/
theorem C7_replay_iff_currently_waited (s : Server) (c : Nat)
    (room role sid : String) (h1 : room ≠ "") :
    (∀ clients d, alookup s.waiters room = some clients →
      clients.any (fun cl => cl.role == role) = false →
      alookup s.draft_states room = some d →
      (open_conn s c room role sid).1 = OpenResult.joinedReplay d.history) ∧
    (alookup s.waiters room = none →
      (open_conn s c room role sid).1 = OpenResult.joinedFirst) := by
  constructor
  · intro clients d hw hfree hd
    simp [open_conn, h1, hw, hfree, hd, DraftState.get_history]
  · intro hw
    simp [open_conn, h1, hw]

/-- Claim C7 witness: in the two-client room both parts apply; the second
slot is instantiated on the emptied room of the counterexample trace. -/
theorem C7_witness :
    (open_conn wServer 3 "r" "3" "1").1 =
      OpenResult.joinedReplay (DraftState.new "1").history ∧
    (open_conn cexS3 2 "r" "2" "1").1 = OpenResult.joinedFirst := by
  have h1 := (C7_replay_iff_currently_waited wServer 3 "r" "3" "1"
    (by decide)).1 [⟨1, "1"⟩, ⟨2, "2"⟩] (DraftState.new "1")
    (by decide) (by decide) (by decide)
  have h2 := (C7_replay_iff_currently_waited cexS3 2 "r" "2" "1"
    (by decide)).2 (by decide)
  exact ⟨h1, h2⟩

/-- Deleting a key from an association list makes its lookup fail. -/
lemma alookup_aremove_self {α : Type} (l : List (String × α)) (k : String) :
    alookup (aremove l k) k = none := by
  induction l with
  | nil => rfl
  | cons p rest ih =>
    obtain ⟨k2, v2⟩ := p
    by_cases h : k2 = k
    · simp [aremove, h, ih]
    · simp [aremove, alookup, h, ih]

/-- Claim C8: when the rooms waiters already hold the requested role, the
join is answered with the Role already specified error and the server is
returned exactly as it was; the rejected connection closes with its room
attribute cleared, so its close callback performs no registry cleanup. -/
theorem C8_role_taken_no_cleanup (s : Server) (c : Nat)
    (room role sid : String) (clients : List Client)
    (h1 : room ≠ "")
    (h2 : alookup s.waiters room = some clients)
    (h3 : clients.any (fun cl => cl.role == role) = true)
    (h4 : (alookup s.draft_states room).isSome = true) :
    open_conn s c room role sid =
      (OpenResult.errorResp "Error: Role already specified", s) ∧
    on_close s none role = some s := by
  have he : ensureDraft s.draft_states room sid = s.draft_states := by
    cases hd : alookup s.draft_states room with
    | none => rw [hd] at h4; simp at h4
    | some d => simp [ensureDraft, hd]
  constructor
  · simp [open_conn, h1, h2, h3, he]
  · rfl

/-- Claim C8 witness: a second join for role 1 in the two-client room. -/
theorem C8_witness :
    open_conn wServer 3 "r" "1" "1" =
      (OpenResult.errorResp "Error: Role already specified", wServer) ∧
    on_close wServer none "1" = some wServer :=
  C8_role_taken_no_cleanup wServer 3 "r" "1" "1" [⟨1, "1"⟩, ⟨2, "2"⟩]
    (by decide) (by decide) (by decide) (by decide)

/-- Claim C9: closing the last connection of a room deletes only the
rooms waiters entry; draft_states is untouched by construction, and a
later join to the same room finds the room absent from waiters, leaves
draft_states unchanged (the retained state is looked up, not recreated)
and still resolves the room to the very same DraftState. -/
theorem C9_last_close_retains_draft (s : Server) (room role : String)
    (clients : List Client)
    (h1 : room ≠ "")
    (h2 : alookup s.waiters room = some clients)
    (h3 : clients.filter (fun cl => !(cl.role == role)) = []) :
    on_close s (some room) role =
      some { s with waiters := aremove s.waiters room } ∧
    alookup (aremove s.waiters room) room = none ∧
    ({ s with waiters := aremove s.waiters room } : Server).draft_states =
      s.draft_states ∧
    (∀ c role2 sid d, alookup s.draft_states room = some d →
      (open_conn { s with waiters := aremove s.waiters room }
          c room role2 sid).2.draft_states = s.draft_states ∧
      alookup (open_conn { s with waiters := aremove s.waiters room }
          c room role2 sid).2.draft_states room = some d) := by
  refine ⟨?_, alookup_aremove_self s.waiters room, rfl, ?_⟩
  · simp [on_close, h1, h2, h3]
  · intro c role2 sid d hd
    have hw2 : alookup (aremove s.waiters room) room = none :=
      alookup_aremove_self s.waiters room
    have he : ensureDraft s.draft_states room sid = s.draft_states := by
      simp [ensureDraft, hd]
    constructor
    · simp [open_conn, h1, hw2, he]
    · simp [open_conn, h1, hw2, he, hd]

/-- Claim C9 witness: the one-client room of the counterexample trace,
closed and rejoined under role 2. -/
theorem C9_witness :
    on_close cexS2 (some "r") "1" =
      some { cexS2 with waiters := aremove cexS2.waiters "r" } ∧
    alookup (aremove cexS2.waiters "r") "r" = none ∧
    (open_conn { cexS2 with waiters := aremove cexS2.waiters "r" }
        2 "r" "2" "1").2.draft_states = cexS2.draft_states := by
  have h := C9_last_close_retains_draft cexS2 "r" "1" [⟨1, "1"⟩]
    (by decide) (by decide) (by decide)
  have h4 := h.2.2.2 2 "2" "1"
    ((DraftState.new "1").update_draft ⟨"t1", "update", "adagio", 1⟩)
    (by decide)
  exact ⟨h.1, h.2.1, h4.1⟩

/-- Claim C10: in every DraftState of catalog style 1 reachable by
on_message submissions the turn counter never exceeds the sequence length
6, is_ended never reports true, and consequently no submission ever takes
the Draft has ended broadcast branch of on_message. -/
theorem C10_ended_branch_unreachable (d : DraftState)
    (h : Reachable "1" d) :
    d.turn ≤ 6 ∧ d.is_ended = some false ∧
    ∀ role payload t n,
      (on_message d role payload t).1 ≠ MsgResult.endedBroadcast n := by
  have hle : d.turn ≤ 6 := reachable_turn_le d h
  have hs : d.style = "1" := reachable_style "1" d h
  have he : d.is_ended = some false := by
    have hl : lookupStyle d.style = some style1 := by rw [hs]; rfl
    have h6 : style1.length = 6 := rfl
    simp [DraftState.is_ended, hl, h6]
    omega
  refine ⟨hle, he, ?_⟩
  intro role payload t n
  cases ht : d.is_turn role with
  | none => simp [on_message, he, ht]
  | some b => cases b with
    | false => simp [on_message, he, ht]
    | true => simp [on_message, he, ht]

/-- Claim C10 witness: the property at the reachable state holding all
six committed events, where the turn counter has reached the bound. -/
theorem C10_witness :
    (playAll (DraftState.new "1") sixMoves).turn ≤ 6 ∧
    (playAll (DraftState.new "1") sixMoves).is_ended = some false ∧
    (on_message (playAll (DraftState.new "1") sixMoves) "1" "g" "t1").1 ≠
      MsgResult.endedBroadcast ⟨"t1", "message", "Draft has ended"⟩ := by
  have hr : Reachable "1" (playAll (DraftState.new "1") sixMoves) :=
    Reachable.step _ "2" "f" "t0"
      (Reachable.step _ "1" "e" "t0"
        (Reachable.step _ "1" "d" "t0"
          (Reachable.step _ "2" "c" "t0"
            (Reachable.step _ "2" "b" "t0"
              (Reachable.step _ "1" "a" "t0" Reachable.init)))))
  have h := C10_ended_branch_unreachable _ hr
  exact ⟨h.1, h.2.1, h.2.2 "1" "g" "t1" _⟩
